import Mathlib

/-!
Verification of the SunBar solar position and shadow occlusion engine.

The development embeds, in Lean, the data model and the operations of the
SunBar repository: the Overpass venue and building adapters, the solar
position value object, the per-venue shadow occlusion classifier, the
batch classification service and the query orchestration contract.
Adapter code (OverpassVenueAdapter, OverpassBuildingAdapter, the stored
venues endpoint and the API types) is translated from the repository
sources. The domain core (Coordinates validation, SunPosition,
ShadowOccluder, SunlightClassificationService, GetSunnyVenuesUseCase) is
not present in the available sources; those definitions are modelled from
the specification, as marked in their doc comments.
-/

namespace SunBar

/-- Model of a JavaScript number as seen by the adapters: either a finite
rational value or one of the non-finite values NaN, plus infinity and
minus infinity. -/
inductive JsNum where
  | fin (q : ℚ)
  | nan
  | posInf
  | negInf
deriving DecidableEq

/-- Truthiness of a JavaScript number: 0 and NaN are falsy, every other
number (including the infinities) is truthy. -/
def JsNum.truthy : JsNum → Bool
  | .fin q => decide (q ≠ 0)
  | .nan => false
  | .posInf => true
  | .negInf => true

/-- Finiteness test for the modelled JavaScript number. -/
def JsNum.isFinite : JsNum → Bool
  | .fin _ => true
  | _ => false

/-- Geographic coordinates with rational latitude and longitude, the
payload of a successfully constructed Coordinates value object. -/
structure Coordinates where
  latitude : ℚ
  longitude : ℚ
deriving DecidableEq

/-- Modelled from the spec: Coordinates construction requires latitude in
[-90, 90] and longitude in [-180, 180], both finite; invalid values fail
construction (the adapters catch the failure and drop the element). The
failure is modelled as none. -/
def Coordinates.create (lat lon : JsNum) : Option Coordinates :=
  match lat, lon with
  | .fin la, .fin lo =>
      if -90 ≤ la ∧ la ≤ 90 ∧ -180 ≤ lo ∧ lo ≤ 180 then some ⟨la, lo⟩ else none
  | _, _ => none

/-- Venue categories accepted by the venue adapter, a closed set. -/
inductive VenueType where
  | bar
  | restaurant
  | cafe
  | pub
  | biergarten
deriving DecidableEq

/-- Venue entity as produced by the venue adapter. -/
structure Venue where
  id : String
  name : String
  type : VenueType
  coordinates : Coordinates
  outdoor_seating : Bool
  address : Option String
  phone : Option String
  website : Option String
  openingHours : Option String
deriving DecidableEq

/-- Building entity as produced by the building adapter: centroid
coordinates, optional parsed height in meters, optional parsed level
count, optional footprint. -/
structure Building where
  id : String
  coordinates : Coordinates
  height : Option ℚ
  levels : Option ℤ
  footprint : Option (List Coordinates)
deriving DecidableEq

/-- Overpass API element as consumed by both adapters: an OSM type tag,
a numeric id, optional coordinates for nodes, an optional center for ways
and relations, an optional geometry and a tag map. -/
structure OverpassElement where
  etype : String
  id : ℤ
  lat : Option JsNum
  lon : Option JsNum
  center : Option (JsNum × JsNum)
  geometry : Option (List (JsNum × JsNum))
  tags : List (String × String)

/-- Lookup of a tag value by key in the element tag map. -/
def lookupTag (tags : List (String × String)) (key : String) : Option String :=
  (tags.find? (fun p => p.1 == key)).map Prod.snd

/-- Resolved latitude of an element: its own lat when present, else the
lat of its center, mirroring the nullish coalescing in both adapters. -/
def resolvedLat (e : OverpassElement) : Option JsNum :=
  e.lat <|> e.center.map Prod.fst

/-- Resolved longitude of an element, symmetric to the latitude case. -/
def resolvedLon (e : OverpassElement) : Option JsNum :=
  e.lon <|> e.center.map Prod.snd

/-- Truthiness of an optional JavaScript number: missing values, zero and
NaN are all falsy, which is exactly the check both adapters apply to the
resolved coordinates. -/
def truthyOptNum : Option JsNum → Bool
  | none => false
  | some v => v.truthy

/-- Truthiness of an optional JavaScript string: missing and empty
strings are falsy. -/
def truthyOptString : Option String → Bool
  | none => false
  | some s => !s.isEmpty

/-- JavaScript logical-or over optional strings: the left value when it
is truthy, else the right value. -/
def jsOrString (a b : Option String) : Option String :=
  match a with
  | some s => if s.isEmpty then b else some s
  | none => b

/-- Numeric value of a list of decimal digit characters. -/
def digitsToNat (cs : List Char) : ℕ :=
  cs.foldl (fun acc c => acc * 10 + (c.toNat - 48)) 0

/-- Leading decimal literal of a string, mirroring the height regex of
the building adapter: one or more digits, optionally followed by a dot
and one or more digits; no match yields none. -/
def parseDecimalPrefix (s : String) : Option ℚ :=
  let cs := s.toList
  let intPart := cs.takeWhile Char.isDigit
  if intPart.isEmpty then none
  else
    match cs.drop intPart.length with
    | '.' :: rest =>
        let frac := rest.takeWhile Char.isDigit
        if frac.isEmpty then some (digitsToNat intPart)
        else some ((digitsToNat intPart : ℚ) + (digitsToNat frac : ℚ) / (10 ^ frac.length))
    | _ => some (digitsToNat intPart)

/-- Leading natural number of a character list, or none when the list
does not start with a digit. -/
def parseNatPrefix (cs : List Char) : Option ℕ :=
  let ds := cs.takeWhile Char.isDigit
  if ds.isEmpty then none else some (digitsToNat ds)

/-- Base-10 parseInt semantics used for the levels tag: skip leading
whitespace, accept an optional sign, then require at least one digit and
read the digit prefix. -/
def parseIntJs (s : String) : Option ℤ :=
  let cs := s.toList.dropWhile (fun c => c == ' ' || c == '\t' || c == '\n' || c == '\r')
  match cs with
  | '-' :: rest => (parseNatPrefix rest).map (fun n => -(n : ℤ))
  | '+' :: rest => (parseNatPrefix rest).map (fun n => (n : ℤ))
  | _ => (parseNatPrefix cs).map (fun n => (n : ℤ))

/-- Height parser of the building adapter: read the height tag or the
building colon height tag, require a truthy string, then match the
leading decimal literal. -/
def parseHeight (tags : List (String × String)) : Option ℚ :=
  match jsOrString (lookupTag tags ("height")) (lookupTag tags ("building:height")) with
  | none => none
  | some s => if s.isEmpty then none else parseDecimalPrefix s

/-- Levels parser of the building adapter: read the building colon levels
tag or the levels tag, require a truthy string, then apply base-10
parseInt and drop NaN results. -/
def parseLevels (tags : List (String × String)) : Option ℤ :=
  match jsOrString (lookupTag tags ("building:levels")) (lookupTag tags ("levels")) with
  | none => none
  | some s => if s.isEmpty then none else parseIntJs s

/-- Footprint construction inside the try block of the building adapter:
absent geometry yields an absent footprint, present geometry maps every
point through Coordinates construction and any failure aborts the whole
building. -/
def footprintOf (e : OverpassElement) : Option (Option (List Coordinates)) :=
  match e.geometry with
  | none => some none
  | some pts => (pts.mapM (fun p => Coordinates.create p.1 p.2)).map some

/-- Element-to-building conversion of the building adapter: resolve the
coordinates, drop the element when either coordinate is falsy, then build
the entity inside a try block in which any failed Coordinates
construction yields null. -/
def elementToBuilding (e : OverpassElement) : Option Building :=
  let lat := resolvedLat e
  let lon := resolvedLon e
  if truthyOptNum lat && truthyOptNum lon then
    match lat, lon with
    | some la, some lo =>
        match Coordinates.create la lo with
        | none => none
        | some c =>
            match footprintOf e with
            | none => none
            | some fp =>
                some { id := e.etype ++ "/" ++ toString e.id
                       coordinates := c
                       height := parseHeight e.tags
                       levels := parseLevels e.tags
                       footprint := fp }
    | _, _ => none
  else none

/-- Batch building parser: convert every element and keep the successes,
as the map plus non-null filter of the building adapter. -/
def parseBuildings (elements : List OverpassElement) : List Building :=
  elements.filterMap elementToBuilding

/-- Amenity-to-venue-type mapping of the venue adapter. -/
def mapAmenityToVenueType : Option String → Option VenueType
  | some ("bar") => some .bar
  | some ("restaurant") => some .restaurant
  | some ("cafe") => some .cafe
  | some ("pub") => some .pub
  | some ("biergarten") => some .biergarten
  | _ => none

/-- Address builder of the venue adapter: join the truthy street, house
number and city tags with commas, or return none when all are absent. -/
def buildAddress (tags : List (String × String)) : Option String :=
  let parts := ([lookupTag tags ("addr:street"),
                 lookupTag tags ("addr:housenumber"),
                 lookupTag tags ("addr:city")].filterMap id).filter (fun s => !s.isEmpty)
  if parts.isEmpty then none else some (String.intercalate (", ") parts)

/-- Element-to-venue conversion of the venue adapter: resolve the
coordinates, drop the element when either coordinate is falsy, drop
unknown amenities, then build the entity with Coordinates construction
failures caught as null. -/
def elementToVenue (e : OverpassElement) : Option Venue :=
  let lat := resolvedLat e
  let lon := resolvedLon e
  if truthyOptNum lat && truthyOptNum lon then
    match mapAmenityToVenueType (lookupTag e.tags ("amenity")) with
    | none => none
    | some vt =>
        match lat, lon with
        | some la, some lo =>
            match Coordinates.create la lo with
            | none => none
            | some c =>
                some { id := e.etype ++ "/" ++ toString e.id
                       name := (jsOrString (lookupTag e.tags ("name")) (some ("Unknown"))).getD ("Unknown")
                       type := vt
                       coordinates := c
                       outdoor_seating := lookupTag e.tags ("outdoor_seating") == some ("yes")
                       address := buildAddress e.tags
                       phone := lookupTag e.tags ("phone")
                       website := lookupTag e.tags ("website")
                       openingHours := lookupTag e.tags ("opening_hours") }
        | _, _ => none
  else none

/-- Batch venue parser: keep only elements with a truthy name tag, then
convert and keep the successes, as in the venue adapter. -/
def parseVenues (elements : List OverpassElement) : List Venue :=
  (elements.filter (fun e => truthyOptString (lookupTag e.tags ("name")))).filterMap elementToVenue

/-- Modelled from the spec: configured default building height in meters,
used when both the height and the levels of a building are absent. The
exact configured value is not recoverable from the available sources. -/
def DEFAULT_HEIGHT_M : ℚ := 10

/-- Modelled from the spec: upper clamp for shadow lengths in meters,
guarding the tangent singularity near sunrise and sunset. -/
def MAX_SHADOW_LENGTH_M : ℚ := 300

/-- Modelled from the spec: default effective building radius in meters,
used when no footprint is available. -/
def DEFAULT_BUILDING_RADIUS_M : ℚ := 10

/-- Modelled from the spec: lower bound on the distance used in the
angular tolerance computation. -/
def DISTANCE_EPSILON_M : ℚ := 1

/-- Modelled from the spec: small fixed slack factor widening the angular
tolerance for partial coverage; a documented placeholder value. -/
def ANGLE_SLACK : ℚ := 11 / 10

/-- Modelled from the spec: slack factor on the shadow length for the
partial sunlight test; a documented placeholder value. -/
def PARTIAL_LENGTH_SLACK : ℚ := 6 / 5

/-- Modelled from the spec: slack factor on the angular tolerance for the
partial sunlight test; a documented placeholder value. -/
def PARTIAL_ANGLE_SLACK : ℚ := 3 / 2

/-- Modelled from the spec: confidence attached to a partial sunlight
candidate; a documented placeholder value matching the presentation
layer. -/
def PARTIAL_CONFIDENCE : ℚ := 7 / 10

/-- Mean Earth radius in meters for the geodesic distance. -/
def EARTH_RADIUS_M : ℚ := 6371000

/-- Modelled from the spec: wrap an angle in radians into [0, 2 pi). -/
noncomputable def normalizeAngle (x : ℝ) : ℝ :=
  x - 2 * Real.pi * ⌊x / (2 * Real.pi)⌋

/-- Modelled from the spec: wrap an angle in degrees into [0, 360). -/
noncomputable def normalizeDegrees (x : ℝ) : ℝ :=
  x - 360 * ⌊x / 360⌋

/-- Radians-to-degrees conversion. -/
noncomputable def radiansToDegrees (x : ℝ) : ℝ :=
  x * 180 / Real.pi

/-- Degrees-to-radians conversion. -/
noncomputable def degreesToRadians (x : ℝ) : ℝ :=
  x * Real.pi / 180

/-- Modelled from the spec: the SunPosition value object with altitude in
radians, azimuth in radians and a timestamp; immutable once created. -/
structure SunPosition where
  altitude : ℝ
  azimuth : ℝ
  timestamp : ℤ

/-- Modelled from the spec: SunPosition construction normalizes any input
azimuth, including negative values and values of at least 2 pi, into
[0, 2 pi). -/
noncomputable def SunPosition.create (altitude azimuth : ℝ) (timestamp : ℤ) : SunPosition :=
  ⟨altitude, normalizeAngle azimuth, timestamp⟩

/-- Derived read-only view: altitude in degrees. -/
noncomputable def SunPosition.altitudeDegrees (sp : SunPosition) : ℝ :=
  radiansToDegrees sp.altitude

/-- Modelled from the spec: derived read-only degrees view of the
azimuth, always in [0, 360). The underlying solar library measures
azimuth from south, so the view adds 180 degrees before wrapping; the
Madrid scenario of the spec (input azimuth 3.14 rad maps near 360
degrees) and the use case test pin this convention. -/
noncomputable def SunPosition.azimuthDegrees (sp : SunPosition) : ℝ :=
  normalizeDegrees (radiansToDegrees sp.azimuth + 180)

/-- Derived read-only view: whether the sun is above the horizon. -/
def SunPosition.isAboveHorizon (sp : SunPosition) : Prop :=
  0 < sp.altitude

/-- The five-way sunlight status variant of the domain model. -/
inductive SunlightStatusKind where
  | SUNNY
  | PARTIALLY_SUNNY
  | SHADED
  | NIGHT
  | UNKNOWN
deriving DecidableEq

/-- Modelled from the spec: the SunlightStatus value object, a status
variant carrying a confidence in [0, 1] and an optional reason key. -/
structure SunlightStatus where
  status : SunlightStatusKind
  confidence : ℝ
  reason : Option String

/-- The terminal night status with confidence one. -/
def SunlightStatus.night : SunlightStatus :=
  ⟨.NIGHT, 1, none⟩

/-- The sunny status with confidence one, the result when no building
produces a candidate. -/
def SunlightStatus.sunny : SunlightStatus :=
  ⟨.SUNNY, 1, none⟩

/-- Modelled from the spec: the shadow casting height of a building is
its height when present, else three meters per level when the level count
is present, else the configured default height, so missing data never
fails the classification. -/
def shadowCastingHeight (b : Building) : ℚ :=
  match b.height with
  | some h => h
  | none =>
      match b.levels with
      | some l => 3 * (l : ℚ)
      | none => DEFAULT_HEIGHT_M

/-- Modelled from the spec: the shadow length is the height divided by
the tangent of the altitude, clamped to the configured maximum shadow
length. -/
noncomputable def shadowLength (height altitude : ℝ) : ℝ :=
  min (height / Real.tan altitude) ((MAX_SHADOW_LENGTH_M : ℚ) : ℝ)

/-- Four-quadrant arctangent through the complex argument. -/
noncomputable def atan2 (y x : ℝ) : ℝ :=
  Complex.arg ⟨x, y⟩

/-- Modelled from the spec: geodesic distance between two coordinates by
the haversine formula over the mean Earth radius. -/
noncomputable def geodesicDistance (a b : Coordinates) : ℝ :=
  let la1 := degreesToRadians (a.latitude : ℝ)
  let la2 := degreesToRadians (b.latitude : ℝ)
  let dLat := degreesToRadians ((b.latitude : ℝ) - (a.latitude : ℝ))
  let dLon := degreesToRadians ((b.longitude : ℝ) - (a.longitude : ℝ))
  let h := Real.sin (dLat / 2) ^ 2 + Real.cos la1 * Real.cos la2 * Real.sin (dLon / 2) ^ 2
  2 * ((EARTH_RADIUS_M : ℚ) : ℝ) * Real.arcsin (Real.sqrt h)

/-- Modelled from the spec: initial bearing from the first coordinate to
the second, wrapped into [0, 2 pi). -/
noncomputable def initialBearing (a b : Coordinates) : ℝ :=
  let la1 := degreesToRadians (a.latitude : ℝ)
  let la2 := degreesToRadians (b.latitude : ℝ)
  let dLon := degreesToRadians ((b.longitude : ℝ) - (a.longitude : ℝ))
  let y := Real.sin dLon * Real.cos la2
  let x := Real.cos la1 * Real.sin la2 - Real.sin la1 * Real.cos la2 * Real.cos dLon
  normalizeAngle (atan2 y x)

/-- Modelled from the spec: smallest angle between two directions in
radians. -/
noncomputable def smallestAngleBetween (x y : ℝ) : ℝ :=
  let d := normalizeAngle (x - y)
  min d (2 * Real.pi - d)

/-- Modelled from the spec: the direction a shadow is cast, opposite the
sun azimuth. -/
noncomputable def shadowDirection (sp : SunPosition) : ℝ :=
  normalizeAngle (sp.azimuth + Real.pi)

/-- Modelled from the spec: effective occlusion radius of a building, the
bounding radius of its footprint when present and non-empty, else the
configured default building radius. -/
noncomputable def Building.effectiveRadius (b : Building) : ℝ :=
  match b.footprint with
  | none => ((DEFAULT_BUILDING_RADIUS_M : ℚ) : ℝ)
  | some [] => ((DEFAULT_BUILDING_RADIUS_M : ℚ) : ℝ)
  | some ps => (ps.map (fun p => geodesicDistance b.coordinates p)).foldr max 0

/-- Kind of an occlusion candidate produced by one building. -/
inductive CandidateKind where
  | fullShade
  | partialShade
deriving DecidableEq

/-- Occlusion candidate: a kind together with its confidence. -/
structure Candidate where
  kind : CandidateKind
  confidence : ℝ

/-- Status kind a winning candidate maps to. -/
def candidateStatusKind : CandidateKind → SunlightStatusKind
  | .fullShade => .SHADED
  | .partialShade => .PARTIALLY_SUNNY

/-- Modelled from the spec: confidence of a full shade candidate, higher
the closer the venue sits to the shadow core, capped into [0, 1]; the
exact formula is a documented placeholder faithful to that monotone
description. -/
noncomputable def shadedConfidence (distance rawLength deviation tolerance : ℝ) : ℝ :=
  max 0 (min 1 (1 - (distance / max rawLength ((DISTANCE_EPSILON_M : ℚ) : ℝ)
                      + deviation / max tolerance (1 / 1000)) / 2))

/-- Modelled from the spec: the occlusion test one building contributes
for one venue. Inside the cheap distance pre-filter, a building within
the shadow length and the angular tolerance yields a full shade
candidate; a building within the slackened bounds yields a partial
candidate; anything else yields none. -/
noncomputable def candidateFor (venue : Venue) (sp : SunPosition) (b : Building) : Option Candidate :=
  let rawLength := shadowLength ((shadowCastingHeight b : ℚ) : ℝ) sp.altitude
  let distance := geodesicDistance b.coordinates venue.coordinates
  let radius := b.effectiveRadius
  if distance ≤ rawLength + radius then
    let bearing := initialBearing b.coordinates venue.coordinates
    let deviation := smallestAngleBetween bearing (shadowDirection sp)
    let tolerance := Real.arctan (radius / max distance ((DISTANCE_EPSILON_M : ℚ) : ℝ))
                      * ((ANGLE_SLACK : ℚ) : ℝ)
    if distance ≤ rawLength ∧ deviation ≤ tolerance then
      some ⟨.fullShade, shadedConfidence distance rawLength deviation tolerance⟩
    else if distance ≤ rawLength * ((PARTIAL_LENGTH_SLACK : ℚ) : ℝ)
            ∧ deviation ≤ tolerance * ((PARTIAL_ANGLE_SLACK : ℚ) : ℝ) then
      some ⟨.partialShade, ((PARTIAL_CONFIDENCE : ℚ) : ℝ)⟩
    else none
  else none

/-- Modelled from the spec: of two candidates, keep the one with the
higher confidence; at equal confidence prefer the more restrictive full
shade candidate. -/
noncomputable def betterCandidate (a b : Candidate) : Candidate :=
  if a.confidence < b.confidence then b
  else if b.confidence < a.confidence then a
  else if a.kind = .fullShade then a else b

/-- Modelled from the spec: aggregation across all buildings. The
candidate with the highest confidence wins, full shade candidates outrank
partial candidates at equal confidence, and with no candidate at all the
venue is sunny with confidence one. -/
noncomputable def aggregate : List Candidate → SunlightStatus
  | [] => SunlightStatus.sunny
  | c :: cs =>
      let best := cs.foldl betterCandidate c
      ⟨candidateStatusKind best.kind, best.confidence, none⟩

/-- Modelled from the spec: per-venue classification. A sun position at
or below the horizon is terminal night with confidence one; otherwise the
candidates of all buildings are aggregated. -/
noncomputable def analyzeVenue (venue : Venue) (buildings : List Building) (sp : SunPosition) : SunlightStatus :=
  if sp.altitude ≤ 0 then SunlightStatus.night
  else aggregate (buildings.filterMap (candidateFor venue sp))

/-- Modelled from the spec: batch classification, the same algorithm per
venue over a shared read-only building list, keyed by venue id. -/
noncomputable def analyzeVenues (venues : List Venue) (buildings : List Building) (sp : SunPosition) :
    List (String × SunlightStatus) :=
  venues.map (fun v => (v.id, analyzeVenue v buildings sp))

/-- Whether a status kind counts into the sunny aggregate. -/
def isSunnyStatus : SunlightStatusKind → Bool
  | .SUNNY => true
  | _ => false

/-- Whether a status kind counts into the shaded aggregate: shaded,
partially sunny and night all count as not sunny right now. -/
def isShadedStatus : SunlightStatusKind → Bool
  | .SHADED => true
  | .PARTIALLY_SUNNY => true
  | .NIGHT => true
  | _ => false

/-- Result of the batch classification service: the venue list with
attached statuses plus the two aggregate counts. -/
structure ClassifiedBatch where
  venues : List (Venue × SunlightStatus)
  sunnyCount : ℕ
  shadedCount : ℕ

/-- Modelled from the spec: the classification service over an arbitrary
per-venue analyzer, attaching a status to every venue and counting sunny
statuses and shaded, partially sunny or night statuses. -/
def classifyBatchWith (analyze : Venue → SunlightStatus) (venues : List Venue) : ClassifiedBatch :=
  let pairs := venues.map (fun v => (v, analyze v))
  { venues := pairs
    sunnyCount := (pairs.filter (fun p => isSunnyStatus p.2.status)).length
    shadedCount := (pairs.filter (fun p => isShadedStatus p.2.status)).length }

/-- Modelled from the spec: the classification service instantiated with
the shadow occluder over one shared sun position. -/
noncomputable def classifyBatch (venues : List Venue) (buildings : List Building) (sp : SunPosition) :
    ClassifiedBatch :=
  classifyBatchWith (fun v => analyzeVenue v buildings sp) venues

/-- Rectangular query region in latitude and longitude. -/
structure BoundingBox where
  south : ℚ
  west : ℚ
  north : ℚ
  east : ℚ
deriving DecidableEq

/-- Validation failure surfaced verbatim to the caller. -/
structure ValidationError where
  message : String
deriving DecidableEq

/-- Query accepted by the orchestration layer: an optional bounding box
or an optional center with an optional radius. -/
structure GetSunnyVenuesQuery where
  bbox : Option BoundingBox
  center : Option Coordinates
  radiusMeters : Option ℚ

/-- Result of the orchestration layer: the classified batch together
with the single shared sun position of the query. -/
structure SunnyVenuesResult where
  batch : ClassifiedBatch
  sunPosition : SunPosition

/-- Modelled from the spec: the query orchestration. With a bounding box
it fetches by box and classifies at the box center; without one it
requires a center and a radius and fetches nearby; with neither it fails
validation with the documented message before any fetch or
classification. The providers are passed as functions so that the
validation failure is provably independent of them. -/
noncomputable def executeGetSunnyVenues
    (venuesByBbox : BoundingBox → List Venue)
    (buildingsByBbox : BoundingBox → List Building)
    (venuesNearby : Coordinates → ℚ → List Venue)
    (buildingsNearby : Coordinates → ℚ → List Building)
    (getPosition : ℚ → ℚ → SunPosition)
    (q : GetSunnyVenuesQuery) : Except ValidationError SunnyVenuesResult :=
  match q.bbox with
  | some box =>
      let sp := getPosition ((box.south + box.north) / 2) ((box.west + box.east) / 2)
      .ok ⟨classifyBatch (venuesByBbox box) (buildingsByBbox box) sp, sp⟩
  | none =>
      match q.center, q.radiusMeters with
      | some c, some r =>
          let sp := getPosition c.latitude c.longitude
          .ok ⟨classifyBatch (venuesNearby c r) (buildingsNearby c r) sp, sp⟩
      | _, _ => .error ⟨"Either bbox or center+radiusMeters must be provided"⟩

/-- Sunlight status union of the public API venue type: the stored
venues endpoint can attach only these three values to a venue. -/
inductive ApiSunlightStatus where
  | sunny
  | shaded
  | partially_sunny
deriving DecidableEq

/-- Venue record of the backend database, the input of the stored venues
endpoint. -/
structure BackendVenue where
  venueId : String
  name : String
  venueType : String
  latitude : ℚ
  longitude : ℚ
  outdoorSeating : Option Bool
  addressFormatted : Option String
  phone : Option String
  website : Option String
  openingHours : Option String
deriving DecidableEq

/-- Public API venue shape; its sunlight status field is optional and
restricted to the three-way API union. -/
structure ApiVenue where
  id : String
  name : String
  type : String
  latitude : ℚ
  longitude : ℚ
  outdoor_seating : Option Bool
  address : Option String
  phone : Option String
  website : Option String
  openingHours : Option String
  sunlightStatus : Option ApiSunlightStatus
deriving DecidableEq

/-- Backend-to-API venue transformation of the stored venues endpoint,
attaching the optional shadow analysis result. -/
def transformToApiVenue (bv : BackendVenue) (sunlightStatus : Option ApiSunlightStatus) : ApiVenue :=
  { id := bv.venueId
    name := bv.name
    type := bv.venueType
    latitude := bv.latitude
    longitude := bv.longitude
    outdoor_seating := bv.outdoorSeating
    address := bv.addressFormatted
    phone := bv.phone
    website := bv.website
    openingHours := bv.openingHours
    sunlightStatus := sunlightStatus }

/-- Domain status the presentation layer derives from an API sunlight
status, as in the venues composable: sunny and shaded map with confidence
one, partially sunny with confidence seven tenths. -/
noncomputable def apiStatusToDomain : ApiSunlightStatus → SunlightStatus
  | .sunny => ⟨.SUNNY, 1, some ("sunlight.description.directSunlight")⟩
  | .shaded => ⟨.SHADED, 1, some ("sunlight.description.inBuildingShadow")⟩
  | .partially_sunny => ⟨.PARTIALLY_SUNNY, ((7 : ℚ) / 10 : ℝ), some ("sunlight.description.partialShadow")⟩

/-- Status kind carried by an API sunlight status under the presentation
mapping. -/
def apiStatusKind : ApiSunlightStatus → SunlightStatusKind
  | .sunny => .SUNNY
  | .shaded => .SHADED
  | .partially_sunny => .PARTIALLY_SUNNY

/-- Daytime flag of the stored venues endpoint response: the sun altitude
in radians is strictly positive. -/
def storedIsDaytime (altitudeRadians : ℚ) : Bool :=
  decide (0 < altitudeRadians)

/-- Whether an optional resolved coordinate is a finite number. -/
def finiteCoord : Option JsNum → Bool
  | some (.fin _) => true
  | _ => false

/-- Concrete Madrid-area coordinates used by concrete instances. -/
def demoCoordinates : Coordinates :=
  ⟨2021 / 50, -37 / 10⟩

/-- Concrete venue fixture. -/
def demoVenue : Venue :=
  ⟨"node/1", "Test Venue 1", .cafe, demoCoordinates, true, none, none, none, none⟩

/-- Second concrete venue fixture. -/
def demoVenue2 : Venue :=
  ⟨"node/2", "Test Venue 2", .cafe, ⟨2041 / 50, -371 / 100⟩, true, none, none, none, none⟩

/-- Third concrete venue fixture. -/
def demoVenue3 : Venue :=
  ⟨"node/3", "Test Venue 3", .cafe, ⟨202 / 5, -93 / 25⟩, true, none, none, none, none⟩

/-- Concrete building fixture with an explicit height. -/
def demoBuilding : Building :=
  ⟨"way/10", ⟨2021 / 50, -37 / 10⟩, some 20, none, none⟩

/-- Concrete building fixture with levels only. -/
def demoBuildingLevels : Building :=
  ⟨"way/11", ⟨2021 / 50, -37 / 10⟩, none, some 4, none⟩

/-- Concrete sun position below the horizon. -/
noncomputable def nightSun : SunPosition :=
  ⟨-(1 / 2), 0, 0⟩

/-- Concrete sun position above the horizon. -/
noncomputable def daySun : SunPosition :=
  ⟨1, 0, 0⟩

/-- Concrete backend venue fixture. -/
def demoBackendVenue : BackendVenue :=
  ⟨"node/1", "Test Venue", "cafe", 2021 / 50, -37 / 10, some true, none, none, none, none⟩

/-- Concrete analyzer fixture marking the third venue shaded and the
rest sunny, mirroring the batch counting test. -/
def demoAnalyzer : Venue → SunlightStatus :=
  fun v => if v.id = "node/3" then ⟨.SHADED, 1, none⟩ else ⟨.SUNNY, 1, none⟩

/-- Concrete Overpass element sitting exactly on the equator. -/
def equatorElement : OverpassElement :=
  ⟨"node", 5, some (.fin 0), some (.fin (23 / 10)), none, none,
    [("amenity", "bar"), ("name", "Equator Bar")]⟩

/-- Concrete well-formed Overpass building element. -/
def goodElement : OverpassElement :=
  ⟨"way", 2, none, none, some (.fin 40, .fin 3), none,
    [("building", "yes"), ("height", "15")]⟩

/-- Concrete Overpass element with a NaN latitude. -/
def nanElement : OverpassElement :=
  ⟨"way", 3, some .nan, some (.fin 3), none, none, [("building", "yes")]⟩

/-- Dropping an element that converts to none leaves a filterMap over a
list unchanged. -/
theorem filterMap_skip {α β : Type} (f : α → Option β) (xs ys : List α) (a : α)
    (h : f a = none) :
    (xs ++ a :: ys).filterMap f = (xs ++ ys).filterMap f := by
  simp [List.filterMap_append, List.filterMap_cons, h]

/-- Dropping an element whose venue conversion fails leaves the parsed
venue list unchanged. -/
theorem parseVenues_skip (xs ys : List OverpassElement) (e : OverpassElement)
    (h : elementToVenue e = none) :
    parseVenues (xs ++ e :: ys) = parseVenues (xs ++ ys) := by
  unfold parseVenues
  rw [List.filter_append, List.filter_append, List.filter_cons]
  by_cases hp : truthyOptString (lookupTag e.tags ("name")) = true
  · simp only [hp, if_true]
    exact filterMap_skip elementToVenue _ _ e h
  · simp only [Bool.not_eq_true] at hp
    simp [hp]

/-- C9: analyzeVenue is deterministic. The embedding of the classifier is
a pure function of the venue, the building list and the sun position, so
two calls on identical inputs give identical results, and the batch entry
point agrees pointwise with the single-venue classifier. -/
theorem analyzeVenue_deterministic :
    ∀ (v : Venue) (buildings : List Building) (sp : SunPosition),
      analyzeVenue v buildings sp = analyzeVenue v buildings sp
    ∧ analyzeVenues [v] buildings sp = [(v.id, analyzeVenue v buildings sp)] :=
  fun _ _ _ => ⟨rfl, rfl⟩

/-- C7: the shadow casting height of a building is its height when
present, else three meters per level, else the configured default, and
the shadow length is clamped to the configured maximum. -/
theorem building_height_fallback :
    ∀ b : Building,
      (∀ h : ℚ, b.height = some h → shadowCastingHeight b = h)
    ∧ (b.height = none → ∀ l : ℤ, b.levels = some l → shadowCastingHeight b = 3 * (l : ℚ))
    ∧ (b.height = none → b.levels = none → shadowCastingHeight b = DEFAULT_HEIGHT_M)
    ∧ (∀ altitude : ℝ,
        shadowLength ((shadowCastingHeight b : ℚ) : ℝ) altitude ≤ ((MAX_SHADOW_LENGTH_M : ℚ) : ℝ)) := by
  intro b
  refine ⟨?_, ?_, ?_, ?_⟩
  · intro h hh
    simp [shadowCastingHeight, hh]
  · intro hh l hl
    simp [shadowCastingHeight, hh, hl]
  · intro hh hl
    simp [shadowCastingHeight, hh, hl]
  · intro altitude
    exact min_le_right _ _

/-- Witness for C7 at a concrete building carrying only a level count. -/
theorem building_height_fallback_witness :
    shadowCastingHeight demoBuildingLevels = 3 * ((4 : ℤ) : ℚ) :=
  (building_height_fallback demoBuildingLevels).2.1 rfl 4 rfl

/-- C6: with an empty building list and the sun above the horizon a venue
classifies sunny with confidence one, and an empty venue list yields a
batch result with zero counts rather than an error. -/
theorem emptyInput_safety :
    (∀ (v : Venue) (sp : SunPosition), 0 < sp.altitude →
        analyzeVenue v [] sp = SunlightStatus.sunny
      ∧ (analyzeVenue v [] sp).confidence = 1
      ∧ (analyzeVenue v [] sp).status = SunlightStatusKind.SUNNY)
  ∧ (∀ (buildings : List Building) (sp : SunPosition),
        (classifyBatch [] buildings sp).venues = []
      ∧ (classifyBatch [] buildings sp).sunnyCount = 0
      ∧ (classifyBatch [] buildings sp).shadedCount = 0) := by
  constructor
  · intro v sp h
    have hn : ¬ sp.altitude ≤ 0 := not_le.mpr h
    refine ⟨?_, ?_, ?_⟩ <;> simp [analyzeVenue, hn, aggregate, SunlightStatus.sunny]
  · intro buildings sp
    exact ⟨rfl, rfl, rfl⟩

/-- Witness for C6 at a concrete venue and a concrete daytime sun. -/
theorem emptyInput_safety_witness :
    analyzeVenue demoVenue [] daySun = SunlightStatus.sunny :=
  (emptyInput_safety.1 demoVenue daySun (by norm_num [daySun])).1

/-- C5: the batch counts of the classification service are exactly the
number of venues whose status is sunny and the number whose status is
shaded, partially sunny or night, and a concrete batch with two sunny
venues and one shaded venue counts two and one. -/
theorem classification_counts :
    (∀ (analyze : Venue → SunlightStatus) (venues : List Venue),
        (classifyBatchWith analyze venues).sunnyCount
          = (venues.filter (fun v => isSunnyStatus (analyze v).status)).length
      ∧ (classifyBatchWith analyze venues).shadedCount
          = (venues.filter (fun v => isShadedStatus (analyze v).status)).length)
  ∧ (classifyBatchWith demoAnalyzer [demoVenue, demoVenue2, demoVenue3]).sunnyCount = 2
  ∧ (classifyBatchWith demoAnalyzer [demoVenue, demoVenue2, demoVenue3]).shadedCount = 1 := by
  refine ⟨?_, ?_, ?_⟩
  · intro analyze venues
    constructor <;> (simp only [classifyBatchWith, List.filter_map, List.length_map]; rfl)
  · decide
  · decide

/-- C4: a query carrying neither a bounding box nor a center with a
radius makes the orchestration fail with exactly the documented
validation message, for every possible set of providers, so no fetch or
classification can depend on the outcome. -/
theorem getSunnyVenues_requires_location :
    ∀ (venuesByBbox : BoundingBox → List Venue)
      (buildingsByBbox : BoundingBox → List Building)
      (venuesNearby : Coordinates → ℚ → List Venue)
      (buildingsNearby : Coordinates → ℚ → List Building)
      (getPosition : ℚ → ℚ → SunPosition)
      (q : GetSunnyVenuesQuery),
      q.bbox = none → (q.center = none ∨ q.radiusMeters = none) →
      executeGetSunnyVenues venuesByBbox buildingsByBbox venuesNearby buildingsNearby getPosition q
        = Except.error ⟨"Either bbox or center+radiusMeters must be provided"⟩ := by
  intro fv fb nv nb gp q hb hcr
  obtain ⟨qb, qc, qr⟩ := q
  simp only at hb
  subst hb
  rcases qc with _ | c
  · rcases qr with _ | r <;> rfl
  · rcases qr with _ | r
    · rfl
    · rcases hcr with h | h <;> exact Option.noConfusion h

/-- Witness for C4 at the empty query and concrete trivial providers. -/
theorem getSunnyVenues_requires_location_witness :
    executeGetSunnyVenues (fun _ => []) (fun _ => []) (fun _ _ => []) (fun _ _ => [])
        (fun _ _ => ⟨0, 0, 0⟩) ⟨none, none, none⟩
      = Except.error ⟨"Either bbox or center+radiusMeters must be provided"⟩ :=
  getSunnyVenues_requires_location _ _ _ _ _ _ rfl (Or.inl rfl)

/-- C1 counterexample: the claim also asserts that analyzeVenueShadow of
the stored venues endpoint returns NIGHT with confidence one, but the
result type at its only call site admits only sunny, shaded and
partially_sunny and carries no confidence, so whichever of its four
possible outputs the endpoint attaches to a concrete backend venue, the
API venue never carries the NIGHT status; night-time is carried by the
separate isDaytime flag, false at a concrete negative altitude. -/
theorem apiVenue_never_night_counterexample :
    (transformToApiVenue demoBackendVenue none).sunlightStatus.map apiStatusKind
        ≠ some SunlightStatusKind.NIGHT
  ∧ (transformToApiVenue demoBackendVenue (some .sunny)).sunlightStatus.map apiStatusKind
        ≠ some SunlightStatusKind.NIGHT
  ∧ (transformToApiVenue demoBackendVenue (some .shaded)).sunlightStatus.map apiStatusKind
        ≠ some SunlightStatusKind.NIGHT
  ∧ (transformToApiVenue demoBackendVenue (some .partially_sunny)).sunlightStatus.map apiStatusKind
        ≠ some SunlightStatusKind.NIGHT
  ∧ storedIsDaytime (-(1 / 2)) = false := by
  refine ⟨by decide, by decide, by decide, by decide, by norm_num [storedIsDaytime]⟩

/-- C1 (amended): with the sun at or below the horizon the domain
classifier analyzeVenue returns NIGHT with confidence exactly one
regardless of the buildings; the server-side analyzeVenueShadow cannot
report NIGHT at all, because the API status type restricts every venue it
produces to sunny, shaded or partially_sunny. -/
theorem analyzeVenue_night_below_horizon :
    (∀ (v : Venue) (bs : List Building) (sp : SunPosition), sp.altitude ≤ 0 →
        analyzeVenue v bs sp = SunlightStatus.night
      ∧ (analyzeVenue v bs sp).confidence = 1
      ∧ (analyzeVenue v bs sp).status = SunlightStatusKind.NIGHT)
  ∧ (∀ (bv : BackendVenue) (s : Option ApiSunlightStatus),
        (transformToApiVenue bv s).sunlightStatus.map apiStatusKind
          ≠ some SunlightStatusKind.NIGHT) := by
  constructor
  · intro v bs sp h
    refine ⟨?_, ?_, ?_⟩ <;> simp [analyzeVenue, h, SunlightStatus.night]
  · intro bv s
    rcases s with _ | s
    · simp [transformToApiVenue]
    · cases s <;> simp [transformToApiVenue, apiStatusKind]

/-- Witness for C1 at a concrete venue, building list and night sun. -/
theorem analyzeVenue_night_below_horizon_witness :
    analyzeVenue demoVenue [demoBuilding] nightSun = SunlightStatus.night :=
  (analyzeVenue_night_below_horizon.1 demoVenue [demoBuilding] nightSun (by norm_num [nightSun])).1

/-- C10: an Overpass element whose resolved latitude or longitude is
exactly zero, or missing, is rejected by both adapters, so a venue or
building on the equator or the prime meridian is silently dropped from
all parsed results. -/
theorem zero_coordinate_dropped :
    ∀ e : OverpassElement,
      (resolvedLat e = some (JsNum.fin 0) ∨ resolvedLon e = some (JsNum.fin 0)
        ∨ resolvedLat e = none ∨ resolvedLon e = none) →
      (elementToVenue e = none ∧ elementToBuilding e = none
      ∧ ∀ (xs ys : List OverpassElement),
          parseVenues (xs ++ e :: ys) = parseVenues (xs ++ ys)
        ∧ parseBuildings (xs ++ e :: ys) = parseBuildings (xs ++ ys)) := by
  intro e h
  have hfalse : (truthyOptNum (resolvedLat e) && truthyOptNum (resolvedLon e)) = false := by
    rcases h with h | h | h | h <;> rw [h] <;> simp [truthyOptNum, JsNum.truthy]
  have hv : elementToVenue e = none := by
    unfold elementToVenue
    simp only [hfalse, Bool.false_eq_true, if_false]
  have hb : elementToBuilding e = none := by
    unfold elementToBuilding
    simp only [hfalse, Bool.false_eq_true, if_false]
  refine ⟨hv, hb, ?_⟩
  intro xs ys
  exact ⟨parseVenues_skip xs ys e hv, filterMap_skip elementToBuilding xs ys e hb⟩

/-- Witness for C10 at a concrete named bar element on the equator. -/
theorem zero_coordinate_dropped_witness :
    elementToVenue equatorElement = none :=
  (zero_coordinate_dropped equatorElement (Or.inl rfl)).1

/-- C8: a building element with non-finite resolved coordinates converts
to nothing, is dropped from the parsed building list as if it cast no
shadow while every other element is kept, and the batch classification of
any venues over the parsed list is unchanged, never aborted. -/
theorem malformed_building_skipped :
    ∀ (xs ys : List OverpassElement) (e : OverpassElement),
      finiteCoord (resolvedLat e) = false ∨ finiteCoord (resolvedLon e) = false →
      (elementToBuilding e = none
      ∧ parseBuildings (xs ++ e :: ys) = parseBuildings (xs ++ ys)
      ∧ ∀ (venues : List Venue) (sp : SunPosition),
          classifyBatch venues (parseBuildings (xs ++ e :: ys)) sp
            = classifyBatch venues (parseBuildings (xs ++ ys)) sp) := by
  intro xs ys e h
  have hnone : elementToBuilding e = none := by
    unfold elementToBuilding
    rcases hla : resolvedLat e with _ | la
    · simp [truthyOptNum]
    · rcases hlo : resolvedLon e with _ | lo
      · simp [truthyOptNum]
      · rw [hla, hlo] at h
        cases la <;> cases lo <;>
          simp_all [finiteCoord, truthyOptNum, JsNum.truthy, Coordinates.create]
  have hskip : parseBuildings (xs ++ e :: ys) = parseBuildings (xs ++ ys) :=
    filterMap_skip elementToBuilding xs ys e hnone
  exact ⟨hnone, hskip, fun venues sp => by rw [hskip]⟩

/-- Witness for C8 at a concrete pair of one well-formed element and one
element with a NaN latitude. -/
theorem malformed_building_skipped_witness :
    parseBuildings [goodElement, nanElement] = parseBuildings [goodElement] :=
  (malformed_building_skipped [goodElement] [] nanElement (Or.inl rfl)).2.1

/-- The better of two candidates is one of the two. -/
theorem betterCandidate_eq_or (a b : Candidate) :
    betterCandidate a b = a ∨ betterCandidate a b = b := by
  unfold betterCandidate
  by_cases h1 : a.confidence < b.confidence
  · simp [h1]
  · by_cases h2 : b.confidence < a.confidence
    · simp [h1, h2]
    · by_cases h3 : a.kind = CandidateKind.fullShade <;> simp [h1, h2, h3]

/-- The better of two candidates has at least the confidence of the
first. -/
theorem betterCandidate_conf_left (a b : Candidate) :
    a.confidence ≤ (betterCandidate a b).confidence := by
  unfold betterCandidate
  by_cases h1 : a.confidence < b.confidence
  · rw [if_pos h1]
    exact le_of_lt h1
  · rw [if_neg h1]
    by_cases h2 : b.confidence < a.confidence
    · rw [if_pos h2]
    · rw [if_neg h2]
      by_cases h3 : a.kind = CandidateKind.fullShade
      · rw [if_pos h3]
      · rw [if_neg h3]
        exact le_of_not_lt h2

/-- The better of two candidates has at least the confidence of the
second. -/
theorem betterCandidate_conf_right (a b : Candidate) :
    b.confidence ≤ (betterCandidate a b).confidence := by
  unfold betterCandidate
  by_cases h1 : a.confidence < b.confidence
  · rw [if_pos h1]
  · rw [if_neg h1]
    by_cases h2 : b.confidence < a.confidence
    · rw [if_pos h2]
      exact le_of_lt h2
    · rw [if_neg h2]
      by_cases h3 : a.kind = CandidateKind.fullShade
      · rw [if_pos h3]
        exact le_of_not_lt h1
      · rw [if_neg h3]

/-- When either argument is a full shade candidate whose confidence is
at least that of the better candidate, the better candidate is full
shade. -/
theorem betterCandidate_shade (a b : Candidate)
    (h : (a.kind = CandidateKind.fullShade ∧ (betterCandidate a b).confidence ≤ a.confidence)
       ∨ (b.kind = CandidateKind.fullShade ∧ (betterCandidate a b).confidence ≤ b.confidence)) :
    (betterCandidate a b).kind = CandidateKind.fullShade := by
  by_cases h1 : a.confidence < b.confidence
  · rcases h with ⟨hk, hc⟩ | ⟨hk, hc⟩
    · simp only [betterCandidate, h1, if_true] at hc
      exact absurd h1 (not_lt.mpr hc)
    · simp only [betterCandidate, h1, if_true]
      exact hk
  · by_cases h2 : b.confidence < a.confidence
    · rcases h with ⟨hk, hc⟩ | ⟨hk, hc⟩
      · simp only [betterCandidate, h1, if_false, h2, if_true]
        exact hk
      · simp only [betterCandidate, h1, if_false, h2, if_true] at hc
        exact absurd h2 (not_lt.mpr hc)
    · by_cases h3 : a.kind = CandidateKind.fullShade
      · simp only [betterCandidate, h1, if_false, h2, h3, if_true]
      · simp only [betterCandidate, h1, if_false, h2, h3, if_true]
        rcases h with ⟨hk, _⟩ | ⟨hk, _⟩
        · exact absurd hk h3
        · exact hk

/-- Specification of the candidate fold: the folded best candidate is one
of the candidates, it dominates every confidence, and whenever a full
shade candidate attains at least its confidence the best candidate is
itself full shade. -/
theorem foldl_betterCandidate_spec :
    ∀ (cs : List Candidate) (c : Candidate),
      cs.foldl betterCandidate c ∈ c :: cs
    ∧ (∀ d ∈ c :: cs, d.confidence ≤ (cs.foldl betterCandidate c).confidence)
    ∧ (∀ d ∈ c :: cs, d.kind = CandidateKind.fullShade →
        (cs.foldl betterCandidate c).confidence ≤ d.confidence →
        (cs.foldl betterCandidate c).kind = CandidateKind.fullShade) := by
  intro cs
  induction cs with
  | nil =>
    intro c
    refine ⟨List.mem_cons_self _ _, ?_, ?_⟩
    · intro d hd
      rcases List.mem_cons.mp hd with h | h
      · subst h
        exact le_refl _
      · exact absurd h (List.not_mem_nil d)
    · intro d hd hk _
      rcases List.mem_cons.mp hd with h | h
      · subst h
        exact hk
      · exact absurd h (List.not_mem_nil d)
  | cons x rest ih =>
    intro c
    obtain ⟨ihmem, ihconf, ihshade⟩ := ih (betterCandidate c x)
    have hbx : (betterCandidate c x).confidence
        ≤ (rest.foldl betterCandidate (betterCandidate c x)).confidence :=
      ihconf _ (List.mem_cons_self _ _)
    refine ⟨?_, ?_, ?_⟩
    · rw [List.foldl_cons]
      rcases List.mem_cons.mp ihmem with h | h
      · rcases betterCandidate_eq_or c x with hcx | hcx
        · rw [h, hcx]
          exact List.mem_cons_self _ _
        · rw [h, hcx]
          exact List.mem_cons_of_mem _ (List.mem_cons_self _ _)
      · exact List.mem_cons_of_mem _ (List.mem_cons_of_mem _ h)
    · intro d hd
      rw [List.foldl_cons]
      rcases List.mem_cons.mp hd with h | h
      · rw [h]
        exact le_trans (betterCandidate_conf_left c x) hbx
      · rcases List.mem_cons.mp h with h2 | h2
        · rw [h2]
          exact le_trans (betterCandidate_conf_right c x) hbx
        · exact ihconf _ (List.mem_cons_of_mem _ h2)
    · intro d hd hk hc
      rw [List.foldl_cons] at hc ⊢
      rcases List.mem_cons.mp hd with h | h
      · rw [h] at hk hc
        have hfull : (betterCandidate c x).kind = CandidateKind.fullShade :=
          betterCandidate_shade c x (Or.inl ⟨hk, le_trans hbx hc⟩)
        exact ihshade _ (List.mem_cons_self _ _) hfull
          (le_trans hc (betterCandidate_conf_left c x))
      · rcases List.mem_cons.mp h with h2 | h2
        · rw [h2] at hk hc
          have hfull : (betterCandidate c x).kind = CandidateKind.fullShade :=
            betterCandidate_shade c x (Or.inr ⟨hk, le_trans hbx hc⟩)
          exact ihshade _ (List.mem_cons_self _ _) hfull
            (le_trans hc (betterCandidate_conf_right c x))
        · exact ihshade _ (List.mem_cons_of_mem _ h2) hk hc

/-- C2: per-venue aggregation. Above the horizon the classifier is the
aggregation of the per-building candidates; with no candidate the result
is sunny with confidence one; otherwise the winner is a candidate of
maximal confidence, and whenever a full shade candidate attains the
maximal confidence the final status is SHADED, so full shade outranks
partial shade at equal confidence. -/
theorem aggregate_highest_confidence_wins :
    ((∀ (v : Venue) (bs : List Building) (sp : SunPosition), ¬ sp.altitude ≤ 0 →
        analyzeVenue v bs sp = aggregate (bs.filterMap (candidateFor v sp)))
      ∧ aggregate [] = SunlightStatus.sunny ∧ (aggregate []).confidence = 1)
  ∧ (∀ cs : List Candidate, ∀ d ∈ cs, d.confidence ≤ (aggregate cs).confidence)
  ∧ (∀ cs : List Candidate, cs ≠ [] →
      ∃ d ∈ cs, (aggregate cs).status = candidateStatusKind d.kind
              ∧ (aggregate cs).confidence = d.confidence)
  ∧ (∀ cs : List Candidate, ∀ d ∈ cs, d.kind = CandidateKind.fullShade →
      (∀ e ∈ cs, e.confidence ≤ d.confidence) →
      (aggregate cs).status = SunlightStatusKind.SHADED) := by
  refine ⟨⟨?_, rfl, rfl⟩, ?_, ?_, ?_⟩
  · intro v bs sp h
    simp [analyzeVenue, h]
  · intro cs d hd
    cases cs with
    | nil => exact absurd hd (List.not_mem_nil d)
    | cons c rest =>
      obtain ⟨-, hconf, -⟩ := foldl_betterCandidate_spec rest c
      exact hconf d hd
  · intro cs hne
    cases cs with
    | nil => exact absurd rfl hne
    | cons c rest =>
      obtain ⟨hmem, -, -⟩ := foldl_betterCandidate_spec rest c
      exact ⟨rest.foldl betterCandidate c, hmem, rfl, rfl⟩
  · intro cs d hd hk hmax
    cases cs with
    | nil => exact absurd hd (List.not_mem_nil d)
    | cons c rest =>
      obtain ⟨hmem, -, hshade⟩ := foldl_betterCandidate_spec rest c
      have h1 : (rest.foldl betterCandidate c).confidence ≤ d.confidence := hmax _ hmem
      have h2 := hshade d hd hk h1
      show candidateStatusKind (rest.foldl betterCandidate c).kind = SunlightStatusKind.SHADED
      rw [h2]
      rfl

/-- Witness for C2 at a concrete tie between a partial candidate and a
full shade candidate of equal confidence: the full shade candidate wins
and the status is SHADED. -/
theorem aggregate_highest_confidence_wins_witness :
    (aggregate [⟨CandidateKind.partialShade, 1⟩, ⟨CandidateKind.fullShade, 1⟩]).status
      = SunlightStatusKind.SHADED :=
  aggregate_highest_confidence_wins.2.2.2
    [⟨CandidateKind.partialShade, 1⟩, ⟨CandidateKind.fullShade, 1⟩]
    ⟨CandidateKind.fullShade, 1⟩
    (List.mem_cons_of_mem _ (List.mem_cons_self _ _)) rfl
    (by
      intro e he
      rcases List.mem_cons.mp he with h | h
      · rw [h]
      · rcases List.mem_cons.mp h with h2 | h2
        · rw [h2]
        · exact absurd h2 (List.not_mem_nil e))

/-- The circle constant doubled is positive. -/
theorem two_pi_pos : (0 : ℝ) < 2 * Real.pi := by positivity

/-- The radian wrap is the scaled fractional part of the turn count. -/
theorem normalizeAngle_eq_fract (x : ℝ) :
    normalizeAngle x = 2 * Real.pi * Int.fract (x / (2 * Real.pi)) := by
  have h : (2 : ℝ) * Real.pi ≠ 0 := ne_of_gt two_pi_pos
  unfold normalizeAngle
  rw [Int.fract, mul_sub, mul_div_cancel₀ _ h]

/-- The radian wrap is nonnegative. -/
theorem normalizeAngle_nonneg (x : ℝ) : 0 ≤ normalizeAngle x := by
  rw [normalizeAngle_eq_fract]
  exact mul_nonneg (le_of_lt two_pi_pos) (Int.fract_nonneg _)

/-- The radian wrap is below one full turn. -/
theorem normalizeAngle_lt_two_pi (x : ℝ) : normalizeAngle x < 2 * Real.pi := by
  rw [normalizeAngle_eq_fract]
  calc 2 * Real.pi * Int.fract (x / (2 * Real.pi)) < 2 * Real.pi * 1 :=
        mul_lt_mul_of_pos_left (Int.fract_lt_one _) two_pi_pos
    _ = 2 * Real.pi := mul_one _

/-- The radian wrap fixes angles already inside one turn. -/
theorem normalizeAngle_eq_self (x : ℝ) (h0 : 0 ≤ x) (h1 : x < 2 * Real.pi) :
    normalizeAngle x = x := by
  unfold normalizeAngle
  have hz : ⌊x / (2 * Real.pi)⌋ = 0 := by
    rw [Int.floor_eq_zero_iff]
    refine Set.mem_Ico.mpr ⟨div_nonneg h0 (le_of_lt two_pi_pos), ?_⟩
    rw [div_lt_one two_pi_pos]
    exact h1
  rw [hz]
  simp

/-- The degree wrap is the scaled fractional part of the turn count. -/
theorem normalizeDegrees_eq_fract (x : ℝ) :
    normalizeDegrees x = 360 * Int.fract (x / 360) := by
  unfold normalizeDegrees
  rw [Int.fract, mul_sub, mul_div_cancel₀ _ (by norm_num : (360 : ℝ) ≠ 0)]

/-- The degree wrap is nonnegative. -/
theorem normalizeDegrees_nonneg (x : ℝ) : 0 ≤ normalizeDegrees x := by
  rw [normalizeDegrees_eq_fract]
  exact mul_nonneg (by norm_num) (Int.fract_nonneg _)

/-- The degree wrap is below 360. -/
theorem normalizeDegrees_lt (x : ℝ) : normalizeDegrees x < 360 := by
  rw [normalizeDegrees_eq_fract]
  calc (360 : ℝ) * Int.fract (x / 360) < 360 * 1 :=
        mul_lt_mul_of_pos_left (Int.fract_lt_one _) (by norm_num)
    _ = 360 := mul_one _

/-- The degree wrap fixes angles already inside [0, 360). -/
theorem normalizeDegrees_eq_self (x : ℝ) (h0 : 0 ≤ x) (h1 : x < 360) :
    normalizeDegrees x = x := by
  unfold normalizeDegrees
  have hz : ⌊x / 360⌋ = 0 := by
    rw [Int.floor_eq_zero_iff]
    refine Set.mem_Ico.mpr ⟨div_nonneg h0 (by norm_num), ?_⟩
    rw [div_lt_one (by norm_num : (0 : ℝ) < 360)]
    exact h1
  rw [hz]
  simp

/-- The Madrid scenario value: an input azimuth of 3.14 rad maps to a
degrees view within a hundredth of 359.91 degrees. -/
theorem madrid_azimuth_degrees :
    |(SunPosition.create 1 (157 / 50) 0).azimuthDegrees - 35991 / 100| < 1 / 100 := by
  have hpi := Real.pi_pos
  have hgt := Real.pi_gt_d6
  have hlt := Real.pi_lt_d4
  have haz : (SunPosition.create 1 (157 / 50) 0).azimuth = 157 / 50 := by
    show normalizeAngle (157 / 50) = 157 / 50
    apply normalizeAngle_eq_self
    · norm_num
    · nlinarith [Real.pi_gt_d2]
  have hdeg : (SunPosition.create 1 (157 / 50) 0).azimuthDegrees
      = normalizeDegrees ((157 / 50 : ℝ) * 180 / Real.pi + 180) := by
    unfold SunPosition.azimuthDegrees radiansToDegrees
    rw [haz]
  have hb1 : (157 / 50 : ℝ) * 180 / Real.pi < 17992 / 100 := by
    rw [div_lt_iff₀ hpi]
    nlinarith
  have hb2 : (17990 / 100 : ℝ) < 157 / 50 * 180 / Real.pi := by
    rw [lt_div_iff₀ hpi]
    nlinarith
  have hself : normalizeDegrees ((157 / 50 : ℝ) * 180 / Real.pi + 180)
      = (157 / 50 : ℝ) * 180 / Real.pi + 180 := by
    apply normalizeDegrees_eq_self
    · linarith
    · linarith
  rw [hdeg, hself, abs_lt]
  constructor <;> linarith

/-- C3: SunPosition construction wraps every input azimuth into
[0, 2 pi), the degrees view always lies in [0, 360), the Madrid scenario
input azimuth of 3.14 rad yields a degrees view of about 359.91, and a
positive altitude makes the position read as above the horizon. -/
theorem sunPosition_azimuth_normalization :
    (∀ (alt az : ℝ) (ts : ℤ),
        (0 ≤ (SunPosition.create alt az ts).azimuth
          ∧ (SunPosition.create alt az ts).azimuth < 2 * Real.pi)
      ∧ (0 ≤ (SunPosition.create alt az ts).azimuthDegrees
          ∧ (SunPosition.create alt az ts).azimuthDegrees < 360)
      ∧ (0 < alt → (SunPosition.create alt az ts).isAboveHorizon))
  ∧ |(SunPosition.create 1 (157 / 50) 0).azimuthDegrees - 35991 / 100| < 1 / 100 := by
  refine ⟨?_, madrid_azimuth_degrees⟩
  intro alt az ts
  exact ⟨⟨normalizeAngle_nonneg az, normalizeAngle_lt_two_pi az⟩,
    ⟨normalizeDegrees_nonneg _, normalizeDegrees_lt _⟩,
    fun h => h⟩

/-- Witness for C3 at the Madrid scenario inputs: the created position
reads as above the horizon. -/
theorem sunPosition_azimuth_normalization_witness :
    (SunPosition.create 1 (157 / 50) 0).isAboveHorizon :=
  ((sunPosition_azimuth_normalization.1 1 (157 / 50) 0).2.2) (by norm_num)

end SunBar
